import Mathlib

/-!
Verification of `generate_players.py`: a batch tool that merges per-player
stats JSON files with profile records into a single report collection.

Numbers: the script's integer counters are modelled as `Int`; the host
language's float arithmetic on the small values involved is modelled
exactly over `ℚ`; its `round` builtin (round-half-to-even) is `pyRound`.
Only warning- and error-level console lines are tracked (as `LogLevel`
entries); informational prints are not modelled.
-/

/-- Exact rational model of the host language's `round` builtin:
round to nearest, ties to even. `Rat.floor` is used (rather than `⌊·⌋`)
to keep the definition kernel-computable. -/
def pyRound (q : ℚ) : ℤ :=
  if q - Rat.floor q < 1/2 then Rat.floor q
  else if 1/2 < q - Rat.floor q then Rat.floor q + 1
  else if Rat.floor q % 2 = 0 then Rat.floor q else Rat.floor q + 1

/-- Model of `round(x, 1)`. -/
def pyRound1 (q : ℚ) : ℚ := (pyRound (q * 10) : ℚ) / 10

/-- Model of `round(x, 2)`. -/
def pyRound2 (q : ℚ) : ℚ := (pyRound (q * 100) : ℚ) / 100

/-- Model of `str.endswith`. -/
def pyEndsWith (s suffix : String) : Bool := suffix.data.isSuffixOf s.data

/-- Model of `os.path.splitext(file)[0]` for a filename known to end in an
extension of `extLen` characters. -/
def pyStem (s : String) (extLen : Nat) : String := ⟨s.data.take (s.data.length - extLen)⟩

/-- Insertion-ordered dictionary lookup (`d.get(k)` / `k in d`). -/
def dictGet {α : Type} : List (String × α) → String → Option α
  | [], _ => none
  | (k, v) :: rest, key => if k = key then some v else dictGet rest key

/-- Insertion-ordered dictionary assignment (`d[k] = v`). -/
def dictInsert {α : Type} : List (String × α) → String → α → List (String × α)
  | [], key, v => [(key, v)]
  | (k, w) :: rest, key, v =>
    if k = key then (k, v) :: rest else (k, w) :: dictInsert rest key v

/-- A stats section: mapping from namespaced keys to integer counters. -/
abbrev StatsSection := List (String × Int)

/-- The `"stats"` object: named sections of counters. -/
abbrev RawStats := List (String × StatsSection)

/-- Source `get_custom`: `stats.get("minecraft:custom", {}).get(key, 0)`. -/
def get_custom (stats : RawStats) (key : String) : Int :=
  (dictGet ((dictGet stats "minecraft:custom").getD []) key).getD 0

/-- Source `ticks_to_minutes`: `round(ticks / 20 / 60)`. -/
def ticks_to_minutes (ticks : Int) : Int := pyRound ((ticks : ℚ) / 20 / 60)

/-- Source `cm_to_blocks`: `round(cm / 100)`. -/
def cm_to_blocks (cm : Int) : Int := pyRound ((cm : ℚ) / 100)

/-- Source `get_total`: `sum(stats_section.values()) if stats_section else 0`.
The argument is `none` when the caller passes the host language's null. -/
def get_total (sec : Option StatsSection) : Int :=
  match sec with
  | none => 0
  | some s => if s.isEmpty then 0 else (s.map Prod.snd).sum

/-- Source `calculate_aternos_distance`: nine fixed movement counters,
converted to blocks, with a trailing `"Total (blocks)"` entry. -/
def calculate_aternos_distance (stats : RawStats) : List (String × Int) :=
  let distances_cm : List (String × Int) :=
    [("Distance Sprinted", get_custom stats "minecraft:sprint_one_cm"),
     ("Distance Walked", get_custom stats "minecraft:walk_one_cm"),
     ("Distance by Boat", get_custom stats "minecraft:boat_one_cm"),
     ("Distance Fallen", get_custom stats "minecraft:fall_one_cm"),
     ("Distance Swum", get_custom stats "minecraft:swim_one_cm"),
     ("Distance Walked on Water", get_custom stats "minecraft:walk_on_water_one_cm"),
     ("Distance Walked under Water", get_custom stats "minecraft:walk_under_water_one_cm"),
     ("Distance Crouched", get_custom stats "minecraft:crouch_one_cm"),
     ("Distance Climbed", get_custom stats "minecraft:climb_one_cm")]
  let distances_blocks := distances_cm.map (fun p => (p.1, cm_to_blocks p.2))
  distances_blocks ++ [("Total (blocks)", (distances_blocks.map Prod.snd).sum)]

/-- Severity of a tracked console line. -/
inductive LogLevel where
  | warn : LogLevel
  | error : LogLevel
deriving DecidableEq

/-- The fields of a profile record (decoded tag tree) that the loader reads.
`playerName` is `nbt["bukkit"]["player"]["Name"]` (present iff `"player" in
bukkit and "Name" in bukkit["player"]`); `lastKnownName` is
`nbt["bukkit"]["lastKnownName"]`. -/
structure BukkitTag where
  playerName : Option String
  lastKnownName : Option String
deriving DecidableEq

/-- A decoded profile record: `bukkit` is `nbt["bukkit"]`, `topLevelName` is
`nbt["Name"]`, `healthUpper` is `nbt["Health"]`, `healthLower` is
`nbt["health"]`. -/
structure ProfileNbt where
  bukkit : Option BukkitTag
  topLevelName : Option String
  healthUpper : Option ℚ
  healthLower : Option ℚ
deriving DecidableEq

/-- Truthiness of the mutable `name` variable: false for null or `""`. -/
def pyTruthy : Option String → Bool
  | none => false
  | some s => if s = "" then false else true

/-- Value of `name` after the `if "bukkit" in nbt:` block. -/
def bukkitName (nbt : ProfileNbt) : Option String :=
  match nbt.bukkit with
  | some b =>
    match b.playerName with
    | some n => some n
    | none =>
      match b.lastKnownName with
      | some n => some n
      | none => none
  | none => none

/-- Value of `name` after `if not name and "Name" in nbt: name = nbt["Name"]`. -/
def nameAfterTop (nbt : ProfileNbt) : Option String :=
  if pyTruthy (bukkitName nbt) then bukkitName nbt
  else
    match nbt.topLevelName with
    | some n => some n
    | none => bukkitName nbt

/-- The loader's name resolution: `if not name: name = "Unknown"` and `str`. -/
def resolveName (nbt : ProfileNbt) : String :=
  match nameAfterTop nbt with
  | some n => if n = "" then "Unknown" else n
  | none => "Unknown"

/-- The loader's health resolution: `nbt["Health"]`, else `nbt["health"]`,
else `0.0`. -/
def resolveHealth (nbt : ProfileNbt) : ℚ :=
  match nbt.healthUpper with
  | some h => h
  | none =>
    match nbt.healthLower with
    | some h => h
    | none => 0

/-- One entry of the profile map: `{"name": ..., "health": ...}`. -/
structure PlayerMeta where
  name : String
  health : ℚ
deriving DecidableEq

/-- A file of the playerdata folder: its name and the result of decoding it
(`Except.error` models a decode exception caught by the per-file handler). -/
structure ProfileFile where
  filename : String
  content : Except String ProfileNbt

/-- Loop body of `load_names_and_health_from_playerdata`. -/
def loadStep (acc : List (String × PlayerMeta) × List LogLevel) (f : ProfileFile) :
    List (String × PlayerMeta) × List LogLevel :=
  if pyEndsWith f.filename ".dat" then
    match f.content with
    | Except.ok nbt =>
      (dictInsert acc.1 (pyStem f.filename 4)
        { name := resolveName nbt, health := pyRound1 (resolveHealth nbt / 2) }, acc.2)
    | Except.error _ => (acc.1, acc.2 ++ [LogLevel.warn])
  else acc

/-- Source `load_names_and_health_from_playerdata`: `none` models a missing
folder. Returns the identifier-keyed map plus the warning-level log lines. -/
def load_names_and_health_from_playerdata (folder : Option (List ProfileFile)) :
    List (String × PlayerMeta) × List LogLevel :=
  match folder with
  | none => ([], [LogLevel.warn])
  | some files => files.foldl loadStep ([], [])

/-- The report's `hearts` field: a number, or the `"N/A"` sentinel. -/
inductive HeartsField where
  | num : ℚ → HeartsField
  | na : HeartsField
deriving DecidableEq

/-- A parsed stats file: `stats` is `data.get("stats", {})` (absent key
modelled as `none`). -/
structure StatsData where
  stats : Option RawStats
deriving DecidableEq

/-- The final per-player record built by `parse_player_stats` (the
display-only `totals` sub-record, which repeats these values as formatted
strings, is not modelled). -/
structure Report where
  uuid : String
  name : String
  playtime : Int
  hearts : HeartsField
  blocksMined : Int
  distanceTraveled : Int
  playerKills : Int
  mobKills : Int
  kills : Int
  deaths : Int
  KDR : ℚ
  itemsUsed : Int
  entitiesKilled : Int
  jumps : Int
  lastSeen : String
  movement : List (String × Int)
deriving DecidableEq

/-- Source `parse_player_stats` on already-decoded JSON (`now` is the
timestamp taken at build time). -/
def parse_player_stats (uuid name : String) (health : Option ℚ) (data : StatsData)
    (now : String) : Report :=
  let stats := data.stats.getD []
  let mined := (dictGet stats "minecraft:mined").getD []
  let used := (dictGet stats "minecraft:used").getD []
  let killed := (dictGet stats "minecraft:killed").getD []
  let playtime := ticks_to_minutes (get_custom stats "minecraft:play_time")
  let blocks_mined := get_total (some mined)
  let items_used := get_total (some used)
  let player_kills := get_custom stats "minecraft:player_kills"
  let mob_kills := get_custom stats "minecraft:mob_kills"
  let deaths := get_custom stats "minecraft:deaths"
  let entities_killed := get_total (some killed)
  let jumps := get_custom stats "minecraft:jump"
  let kdr : ℚ :=
    if 0 < deaths then pyRound2 ((player_kills : ℚ) / (deaths : ℚ)) else (player_kills : ℚ)
  let movement := calculate_aternos_distance stats
  let distance_total := (dictGet movement "Total (blocks)").getD 0
  { uuid := uuid
    name := if name = "" then "Unknown" else name
    playtime := playtime
    hearts := match health with
              | some h => HeartsField.num h
              | none => HeartsField.na
    blocksMined := blocks_mined
    distanceTraveled := distance_total
    playerKills := player_kills
    mobKills := mob_kills
    kills := player_kills
    deaths := deaths
    KDR := kdr
    itemsUsed := items_used
    entitiesKilled := entities_killed
    jumps := jumps
    lastSeen := now
    movement := movement }

/-- A file of the stats folder: its name and the result of opening and
JSON-decoding it (`Except.error` models the exception caught in `main`'s
per-file handler). -/
structure StatsFile where
  filename : String
  content : Except String StatsData

/-- The two input directories; `none` models a directory that does not
exist. -/
structure Env where
  statsFolder : Option (List StatsFile)
  playerdataFolder : Option (List ProfileFile)

/-- Result of a run: the serialized report list (`none` when no output file
is written) and the warning/error log lines. -/
structure MainResult where
  output : Option (List Report)
  logs : List LogLevel

/-- `main`'s per-stats-file loop: filter `.json` files, look up profile
metadata (defaulting to name `"Unknown"`, health `0`), build the report, and
log a warning on failure. -/
def processStats (meta : List (String × PlayerMeta)) (now : String) :
    List StatsFile → List Report × List LogLevel
  | [] => ([], [])
  | f :: rest =>
    let r := processStats meta now rest
    if pyEndsWith f.filename ".json" then
      match f.content with
      | Except.ok data =>
        (parse_player_stats (pyStem f.filename 5)
            ((dictGet meta (pyStem f.filename 5)).getD { name := "Unknown", health := 0 }).name
            (some ((dictGet meta (pyStem f.filename 5)).getD
              { name := "Unknown", health := 0 }).health)
            data now :: r.1, r.2)
      | Except.error _ => (r.1, LogLevel.warn :: r.2)
    else r

/-- Source `main` (renamed, since Lean reserves `main` for executables):
abort with an error when the stats folder is missing, else load profile
metadata, process every stats file, and write the output. -/
def mainRun (env : Env) (now : String) : MainResult :=
  match env.statsFolder with
  | none => { output := none, logs := [LogLevel.error] }
  | some files =>
    let lp := load_names_and_health_from_playerdata env.playerdataFolder
    let ps := processStats lp.1 now files
    { output := some ps.1, logs := lp.2 ++ ps.2 }

/-! ### Helper lemmas -/

theorem ratFloor_eq_floor (q : ℚ) : Rat.floor q = ⌊q⌋ := by
  rw [Rat.floor_def', ← Rat.floor_def]

theorem pyRound_abs (q : ℚ) : |(pyRound q : ℚ) - q| ≤ 1/2 := by
  have h0 : (⌊q⌋ : ℚ) ≤ q := Int.floor_le q
  have h1 : q < ⌊q⌋ + 1 := Int.lt_floor_add_one q
  unfold pyRound
  rw [ratFloor_eq_floor]
  split_ifs with hA hB hC <;> rw [abs_le] <;> constructor <;> push_cast <;> linarith

theorem pyRound_eq_low (q : ℚ) (n : ℤ) (h0 : (n : ℚ) ≤ q) (h1 : q < n + 1/2) :
    pyRound q = n := by
  have hfl : ⌊q⌋ = n := by
    rw [Int.floor_eq_iff]
    exact ⟨h0, by linarith⟩
  have hc : q - (n : ℚ) < 1/2 := by linarith
  unfold pyRound
  rw [ratFloor_eq_floor, hfl, if_pos hc]

theorem pyRound_eq_high (q : ℚ) (n : ℤ) (h0 : (n : ℚ) - 1/2 < q) (h1 : q ≤ n) :
    pyRound q = n := by
  rcases eq_or_lt_of_le h1 with he | hlt
  · exact pyRound_eq_low q n (le_of_eq he.symm) (by rw [he]; norm_num)
  · have hfl : ⌊q⌋ = n - 1 := by
      rw [Int.floor_eq_iff]
      push_cast
      constructor <;> linarith
    have hc1 : ¬(q - ((n - 1 : ℤ) : ℚ) < 1/2) := by push_cast; linarith
    have hc2 : (1/2 : ℚ) < q - ((n - 1 : ℤ) : ℚ) := by push_cast; linarith
    unfold pyRound
    rw [ratFloor_eq_floor, hfl, if_neg hc1, if_pos hc2]
    omega

theorem pyRound_tie (n : ℤ) : pyRound ((n : ℚ) + 1/2) = if n % 2 = 0 then n else n + 1 := by
  have hfl : ⌊(n : ℚ) + 1/2⌋ = n := by
    rw [Int.floor_eq_iff]
    exact ⟨by linarith, by linarith⟩
  have h2 : ((n : ℚ) + 1/2) - (n : ℚ) = 1/2 := by ring
  unfold pyRound
  rw [ratFloor_eq_floor, hfl, h2, if_neg (by norm_num), if_neg (by norm_num)]

theorem processStats_append (meta : List (String × PlayerMeta)) (now : String)
    (l1 l2 : List StatsFile) :
    processStats meta now (l1 ++ l2) =
      ((processStats meta now l1).1 ++ (processStats meta now l2).1,
       (processStats meta now l1).2 ++ (processStats meta now l2).2) := by
  induction l1 with
  | nil => simp [processStats]
  | cons f rest ih =>
    by_cases hj : pyEndsWith f.filename ".json" = true <;>
      cases hc : f.content <;>
        simp [processStats, hj, hc, ih]

/-! ### Claim theorems -/

/-- Claim C2 counterexample: at the exact .5 boundary the code rounds half
to even, not half up: `cm_to_blocks 250 = 2`, refuting
`centimetersToBlocks(250) = 3`. -/
theorem cm_to_blocks_250_eq_two : cm_to_blocks 250 = 2 ∧ cm_to_blocks 250 ≠ 3 := by
  have h : cm_to_blocks 250 = 2 := by
    unfold cm_to_blocks
    have harg : ((250 : ℤ) : ℚ) / 100 = ((2 : ℤ) : ℚ) + 1/2 := by norm_num
    rw [harg, pyRound_tie]
    decide
  refine ⟨h, ?_⟩
  rw [h]
  decide

/-- Claim C2 (amended): for every non-negative integer `cm`,
`cm_to_blocks cm` is `cm / 100` rounded to the nearest integer, and at the
exact .5 boundary it rounds half to even (so `cm_to_blocks 250 = 2`). -/
theorem cm_to_blocks_nearest_tie_even (cm : ℕ) :
    |(cm_to_blocks (cm : ℤ) : ℚ) - (cm : ℚ) / 100| ≤ 1/2 ∧
    (cm % 100 = 50 → cm_to_blocks (cm : ℤ) % 2 = 0) := by
  constructor
  · have h := pyRound_abs (((cm : ℤ) : ℚ) / 100)
    unfold cm_to_blocks
    push_cast at h ⊢
    exact h
  · intro h50
    obtain ⟨k, hk⟩ : ∃ k : ℕ, cm = 100 * k + 50 := ⟨cm / 100, by omega⟩
    subst hk
    have hq : (((100 * k + 50 : ℕ) : ℤ) : ℚ) / 100 = ((k : ℤ) : ℚ) + 1/2 := by
      push_cast
      ring
    unfold cm_to_blocks
    rw [hq, pyRound_tie]
    split_ifs with hev
    · exact hev
    · omega

/-- Witness for C2's amended theorem at the boundary input 250. -/
theorem cm_to_blocks_nearest_tie_even_witness :
    250 % 100 = 50 ∧ cm_to_blocks ((250 : ℕ) : ℤ) % 2 = 0 :=
  ⟨by decide, (cm_to_blocks_nearest_tie_even 250).2 (by decide)⟩

/-- Claim C6: for every non-negative integer `t`, `ticks_to_minutes t`
equals `round(t / 1200)` (the two successive divisions by 20 and 60 are
exact), it is within 1/2 of `t / 1200`, and `ticks_to_minutes 72000 = 60`. -/
theorem ticks_to_minutes_nearest (t : ℕ) :
    ticks_to_minutes (t : ℤ) = pyRound ((t : ℚ) / 1200) ∧
    |(ticks_to_minutes (t : ℤ) : ℚ) - (t : ℚ) / 1200| ≤ 1/2 ∧
    ticks_to_minutes 72000 = 60 := by
  have harg : (((t : ℤ) : ℚ)) / 20 / 60 = (t : ℚ) / 1200 := by
    push_cast
    ring
  refine ⟨?_, ?_, ?_⟩
  · unfold ticks_to_minutes
    rw [harg]
  · unfold ticks_to_minutes
    rw [harg]
    exact pyRound_abs _
  · unfold ticks_to_minutes
    have h72 : ((72000 : ℤ) : ℚ) / 20 / 60 = 60 := by norm_num
    rw [h72]
    exact pyRound_eq_low 60 60 (by norm_num) (by norm_num)

/-- Claim C7: `get_total` returns 0 for an absent or empty section, the sum
of all values for a non-empty section, and 8 on `{"a": 3, "b": 5}`. -/
theorem get_total_spec :
    get_total none = 0 ∧
    get_total (some []) = 0 ∧
    (∀ s : StatsSection, s ≠ [] → get_total (some s) = (s.map Prod.snd).sum) ∧
    get_total (some [("a", 3), ("b", 5)]) = 8 := by
  refine ⟨rfl, rfl, ?_, by decide⟩
  intro s hs
  cases s with
  | nil => exact absurd rfl hs
  | cons a t => rfl

/-- Witness for C7's non-empty-section clause at `{"a": 3, "b": 5}`. -/
theorem get_total_spec_witness :
    ([("a", 3), ("b", 5)] : StatsSection) ≠ [] ∧
    get_total (some [("a", 3), ("b", 5)]) =
      (([("a", 3), ("b", 5)] : StatsSection).map Prod.snd).sum :=
  ⟨by decide, get_total_spec.2.2.1 _ (by decide)⟩

/-- Claim C4: for every raw stats tree, the movement breakdown lists exactly
the nine named categories in declaration order followed by
`"Total (blocks)"`, whose value is the sum of the nine named entries. -/
theorem movement_breakdown_shape (stats : RawStats) :
    (calculate_aternos_distance stats).map Prod.fst =
      ["Distance Sprinted", "Distance Walked", "Distance by Boat", "Distance Fallen",
       "Distance Swum", "Distance Walked on Water", "Distance Walked under Water",
       "Distance Crouched", "Distance Climbed", "Total (blocks)"] ∧
    dictGet (calculate_aternos_distance stats) "Total (blocks)" =
      some ((((calculate_aternos_distance stats).take 9).map Prod.snd).sum) := by
  constructor <;> simp [calculate_aternos_distance, dictGet]

/-- Stats tree with `playerKills = 5`, `deaths = 0`. -/
def kdrZeroDeaths : StatsData :=
  ⟨some [("minecraft:custom", [("minecraft:player_kills", 5), ("minecraft:deaths", 0)])]⟩

/-- Stats tree with `playerKills = 10`, `deaths = 4`. -/
def kdrFourDeaths : StatsData :=
  ⟨some [("minecraft:custom", [("minecraft:player_kills", 10), ("minecraft:deaths", 4)])]⟩

/-- Stats tree with `playerKills = 1`, `deaths = 3`. -/
def kdrThreeDeaths : StatsData :=
  ⟨some [("minecraft:custom", [("minecraft:player_kills", 1), ("minecraft:deaths", 3)])]⟩

/-- Claim C3: KDR is `round(playerKills / deaths, 2)` when `deaths > 0` and
the raw kill count when `deaths = 0`; in particular 5 kills with 0 deaths
give 5, 10 kills with 4 deaths give 2.5, and 1 kill with 3 deaths gives
0.33. -/
theorem kdr_policy :
    (∀ (u n : String) (h : Option ℚ) (now : String) (data : StatsData),
      (0 < get_custom (data.stats.getD []) "minecraft:deaths" →
        (parse_player_stats u n h data now).KDR =
          pyRound2 ((get_custom (data.stats.getD []) "minecraft:player_kills" : ℚ) /
            (get_custom (data.stats.getD []) "minecraft:deaths" : ℚ))) ∧
      (get_custom (data.stats.getD []) "minecraft:deaths" = 0 →
        (parse_player_stats u n h data now).KDR =
          (get_custom (data.stats.getD []) "minecraft:player_kills" : ℚ))) ∧
    (parse_player_stats "u" "n" none kdrZeroDeaths "t").KDR = 5 ∧
    (parse_player_stats "u" "n" none kdrFourDeaths "t").KDR = 5/2 ∧
    (parse_player_stats "u" "n" none kdrThreeDeaths "t").KDR = 33/100 := by
  have hgen : ∀ (u n : String) (h : Option ℚ) (now : String) (data : StatsData),
      (0 < get_custom (data.stats.getD []) "minecraft:deaths" →
        (parse_player_stats u n h data now).KDR =
          pyRound2 ((get_custom (data.stats.getD []) "minecraft:player_kills" : ℚ) /
            (get_custom (data.stats.getD []) "minecraft:deaths" : ℚ))) ∧
      (get_custom (data.stats.getD []) "minecraft:deaths" = 0 →
        (parse_player_stats u n h data now).KDR =
          (get_custom (data.stats.getD []) "minecraft:player_kills" : ℚ)) := by
    intro u n h now data
    constructor
    · intro hd
      simp only [parse_player_stats]
      rw [if_pos hd]
    · intro hd
      simp only [parse_player_stats]
      rw [hd]
      norm_num
  refine ⟨hgen, ?_, ?_, ?_⟩
  · have h0 : get_custom (kdrZeroDeaths.stats.getD []) "minecraft:deaths" = 0 := by decide
    have h5 : get_custom (kdrZeroDeaths.stats.getD []) "minecraft:player_kills" = 5 := by
      decide
    rw [(hgen "u" "n" none "t" kdrZeroDeaths).2 h0, h5]
    norm_num
  · have h4 : get_custom (kdrFourDeaths.stats.getD []) "minecraft:deaths" = 4 := by decide
    have h10 : get_custom (kdrFourDeaths.stats.getD []) "minecraft:player_kills" = 10 := by
      decide
    rw [(hgen "u" "n" none "t" kdrFourDeaths).1 (by rw [h4]; norm_num), h4, h10]
    unfold pyRound2
    have harg : ((10 : ℤ) : ℚ) / ((4 : ℤ) : ℚ) * 100 = (250 : ℚ) := by norm_num
    rw [harg, pyRound_eq_low 250 250 (by norm_num) (by norm_num)]
    norm_num
  · have h3 : get_custom (kdrThreeDeaths.stats.getD []) "minecraft:deaths" = 3 := by decide
    have h1 : get_custom (kdrThreeDeaths.stats.getD []) "minecraft:player_kills" = 1 := by
      decide
    rw [(hgen "u" "n" none "t" kdrThreeDeaths).1 (by rw [h3]; norm_num), h3, h1]
    unfold pyRound2
    have harg : ((1 : ℤ) : ℚ) / ((3 : ℤ) : ℚ) * 100 = 100/3 := by norm_num
    rw [harg, pyRound_eq_low (100/3) 33 (by norm_num) (by norm_num)]
    norm_num

/-- Witness for C3's `deaths > 0` clause at 1 kill, 3 deaths. -/
theorem kdr_policy_witness :
    0 < get_custom (kdrThreeDeaths.stats.getD []) "minecraft:deaths" ∧
    (parse_player_stats "u" "n" none kdrThreeDeaths "t").KDR =
      pyRound2 ((get_custom (kdrThreeDeaths.stats.getD []) "minecraft:player_kills" : ℚ) /
        (get_custom (kdrThreeDeaths.stats.getD []) "minecraft:deaths" : ℚ)) :=
  ⟨by decide, (kdr_policy.1 "u" "n" none "t" kdrThreeDeaths).1 (by decide)⟩

/-- Profile record with an empty nested owner name, a last-known name
`"Bob"`, and a top-level name `"Carl"`. -/
def nbtEmptyOwnerName : ProfileNbt :=
  { bukkit := some { playerName := some "", lastKnownName := some "Bob" },
    topLevelName := some "Carl", healthUpper := none, healthLower := none }

/-- Claim C5 counterexample: with nested owner player-name `""`, last-known
name `"Bob"` and top-level name `"Carl"`, the code resolves `"Carl"` — not
the first present candidate (`""`) and not the first non-empty candidate in
the claimed order (`"Bob"`), so the four strategies are not simply tried
first-match-wins. -/
theorem resolveName_order_cex :
    resolveName nbtEmptyOwnerName = "Carl" ∧
    nbtEmptyOwnerName.bukkit = some { playerName := some "", lastKnownName := some "Bob" } ∧
    nbtEmptyOwnerName.topLevelName = some "Carl" ∧
    ("Carl" : String) ≠ "" ∧ ("Carl" : String) ≠ "Bob" := by
  refine ⟨by decide, rfl, rfl, by decide, by decide⟩

/-- Claim C5 (amended): within owner-info the player-name field is selected
by presence (even when empty) ahead of last-known-name; if the selected
candidate is absent or empty the top-level Name is tried, then `"Unknown"`.
A present non-empty nested owner player-name always wins — in particular
over a top-level Name. -/
theorem resolveName_precedence :
    (∀ (pn : String) (lkn top : Option String) (hU hL : Option ℚ), pn ≠ "" →
      resolveName ⟨some ⟨some pn, lkn⟩, top, hU, hL⟩ = pn) ∧
    (∀ (lkn : String) (top : Option String) (hU hL : Option ℚ), lkn ≠ "" →
      resolveName ⟨some ⟨none, some lkn⟩, top, hU, hL⟩ = lkn) ∧
    (∀ (top : String) (hU hL : Option ℚ), top ≠ "" →
      resolveName ⟨none, some top, hU, hL⟩ = top) ∧
    (∀ (hU hL : Option ℚ), resolveName ⟨none, none, hU, hL⟩ = "Unknown") := by
  refine ⟨?_, ?_, ?_, ?_⟩
  · intro pn lkn top hU hL h
    simp [resolveName, nameAfterTop, bukkitName, pyTruthy, h]
  · intro lkn top hU hL h
    simp [resolveName, nameAfterTop, bukkitName, pyTruthy, h]
  · intro top hU hL h
    simp [resolveName, nameAfterTop, bukkitName, pyTruthy, h]
  · intro hU hL
    simp [resolveName, nameAfterTop, bukkitName, pyTruthy]

/-- Witness for C5's amended precedence: a non-empty nested owner name
`"Steve"` wins over the top-level name `"Carl"`. -/
theorem resolveName_precedence_witness :
    ("Steve" : String) ≠ "" ∧
    resolveName ⟨some ⟨some "Steve", none⟩, some "Carl", none, none⟩ = "Steve" :=
  ⟨by decide, resolveName_precedence.1 "Steve" none (some "Carl") none none (by decide)⟩

/-- Profile record with an empty nested owner name and a last-known name but
no top-level name. -/
def nbtEmptySuppressing : ProfileNbt :=
  { bukkit := some { playerName := some "", lastKnownName := some "Bob" },
    topLevelName := none, healthUpper := none, healthLower := none }

/-- Claim C10 counterexample: an empty nested owner player-name is NOT
treated as if absent: it suppresses the last-known-name branch (`"Bob"`),
and the loader resolves `"Unknown"` instead of falling through to the next
strategy. -/
theorem resolveName_empty_skips_lastKnownName :
    resolveName nbtEmptySuppressing = "Unknown" ∧
    nbtEmptySuppressing.bukkit = some { playerName := some "", lastKnownName := some "Bob" } ∧
    ("Unknown" : String) ≠ "Bob" := by
  refine ⟨by decide, rfl, by decide⟩

/-- Claim C10 (amended): an empty-string candidate is never the final name —
after the owner-info block an empty or absent result falls through to the
top-level Name and ultimately to `"Unknown"` — but within the owner-info
block selection is by presence, so an empty player-name suppresses the
last-known-name fallback rather than falling through to it. -/
theorem resolveName_empty_never_final :
    (∀ nbt : ProfileNbt, resolveName nbt ≠ "") ∧
    (∀ (lkn top : Option String) (hU hL : Option ℚ),
      resolveName ⟨some ⟨some "", lkn⟩, top, hU, hL⟩ =
        resolveName ⟨some ⟨some "", none⟩, top, hU, hL⟩) ∧
    (∀ (lkn : Option String) (top : String) (hU hL : Option ℚ), top ≠ "" →
      resolveName ⟨some ⟨some "", lkn⟩, some top, hU, hL⟩ = top) ∧
    (∀ (lkn : Option String) (hU hL : Option ℚ),
      resolveName ⟨some ⟨some "", lkn⟩, none, hU, hL⟩ = "Unknown") := by
  refine ⟨?_, ?_, ?_, ?_⟩
  · intro nbt
    cases h : nameAfterTop nbt with
    | none => simp [resolveName, h]
    | some n =>
      by_cases hn : n = "" <;> simp [resolveName, h, hn]
  · intro lkn top hU hL
    cases top <;> simp [resolveName, nameAfterTop, bukkitName, pyTruthy]
  · intro lkn top hU hL h
    simp [resolveName, nameAfterTop, bukkitName, pyTruthy, h]
  · intro lkn hU hL
    simp [resolveName, nameAfterTop, bukkitName, pyTruthy]

/-- Witness for C10's amended fall-through clause: empty owner name with
top-level name `"Carl"` resolves to `"Carl"`. -/
theorem resolveName_empty_never_final_witness :
    ("Carl" : String) ≠ "" ∧
    resolveName ⟨some ⟨some "", some "Bob"⟩, some "Carl", none, none⟩ = "Carl" :=
  ⟨by decide, resolveName_empty_never_final.2.2.1 (some "Bob") "Carl" none none (by decide)⟩

/-- Run environment with one valid stats file `u1.json` and an empty
playerdata folder, so identifier `u1` has no profile record. -/
def envMissingProfile : Env :=
  { statsFolder := some [{ filename := "u1.json", content := Except.ok { stats := some [] } }],
    playerdataFolder := some [] }

/-- Claim C1: when a stats identifier has no profile record, a report is
still produced with name `"Unknown"`, but its `hearts` field is the number
0 (the orchestrator's default), NOT the `"N/A"` sentinel: the sentinel
branch of `parse_player_stats` is unreachable from `main`, so absent health
is indistinguishable from computed zero health. -/
theorem missing_profile_report_has_zero_hearts :
    ((mainRun envMissingProfile "2025-01-01 00:00:00").output.map
      (fun rs => rs.map (fun r => (r.name, r.hearts)))) =
        some [("Unknown", HeartsField.num 0)] ∧
    HeartsField.num 0 ≠ HeartsField.na := by
  exact ⟨rfl, by decide⟩

/-- Claim C8: a stats file whose parse fails contributes no report, is
logged as a warning, does not stop any other file from being processed, and
the run still writes its output. -/
theorem per_file_failure_isolated (env : Env) (now msg : String)
    (pre post : List StatsFile) (bad : StatsFile)
    (hdir : env.statsFolder = some (pre ++ bad :: post))
    (hbad : bad.content = Except.error msg)
    (hjson : pyEndsWith bad.filename ".json" = true) :
    (mainRun env now).output =
      some ((processStats (load_names_and_health_from_playerdata env.playerdataFolder).1
              now pre).1 ++
            (processStats (load_names_and_health_from_playerdata env.playerdataFolder).1
              now post).1) ∧
    LogLevel.warn ∈ (mainRun env now).logs := by
  have hbadstep : ∀ meta : List (String × PlayerMeta),
      processStats meta now (bad :: post) =
        ((processStats meta now post).1, LogLevel.warn :: (processStats meta now post).2) := by
    intro meta
    simp [processStats, hbad, hjson]
  have hmain : mainRun env now =
      { output := some (processStats
          (load_names_and_health_from_playerdata env.playerdataFolder).1 now
          (pre ++ bad :: post)).1,
        logs := (load_names_and_health_from_playerdata env.playerdataFolder).2 ++
          (processStats (load_names_and_health_from_playerdata env.playerdataFolder).1 now
            (pre ++ bad :: post)).2 } := by
    unfold mainRun
    rw [hdir]
  constructor
  · rw [hmain]
    simp [processStats_append, hbadstep]
  · rw [hmain]
    simp [processStats_append, hbadstep]

/-- Concrete valid stats file for the C8 witness. -/
def statsFileGood : StatsFile :=
  { filename := "good.json", content := Except.ok { stats := some [] } }

/-- Concrete malformed stats file for the C8 witness. -/
def statsFileBad : StatsFile :=
  { filename := "bad.json", content := Except.error "invalid JSON" }

/-- Environment for the C8 witness: one good and one malformed stats file. -/
def envOneBadFile : Env :=
  { statsFolder := some ([statsFileGood] ++ statsFileBad :: []),
    playerdataFolder := some [] }

/-- Witness for C8 on a concrete two-file stats folder. -/
theorem per_file_failure_isolated_witness :
    (mainRun envOneBadFile "t").output =
      some ((processStats
              (load_names_and_health_from_playerdata envOneBadFile.playerdataFolder).1
              "t" [statsFileGood]).1 ++
            (processStats
              (load_names_and_health_from_playerdata envOneBadFile.playerdataFolder).1
              "t" []).1) ∧
    LogLevel.warn ∈ (mainRun envOneBadFile "t").logs :=
  per_file_failure_isolated envOneBadFile "t" "invalid JSON" [statsFileGood] [] statsFileBad
    rfl rfl (by decide)

/-- Claim C9: a missing stats folder is fatal — no output, an error-level
log line; a missing playerdata folder is non-fatal — empty profile map, a
warning, and the run proceeds to write output. -/
theorem directory_missing_policy :
    (∀ (env : Env) (now : String), env.statsFolder = none →
      (mainRun env now).output = none ∧ (mainRun env now).logs = [LogLevel.error]) ∧
    (∀ (env : Env) (now : String) (files : List StatsFile),
      env.statsFolder = some files → env.playerdataFolder = none →
      load_names_and_health_from_playerdata env.playerdataFolder = ([], [LogLevel.warn]) ∧
      (mainRun env now).output = some (processStats [] now files).1 ∧
      LogLevel.warn ∈ (mainRun env now).logs) := by
  constructor
  · intro env now h
    unfold mainRun
    rw [h]
    exact ⟨rfl, rfl⟩
  · intro env now files hs hp
    have hl : load_names_and_health_from_playerdata env.playerdataFolder =
        ([], [LogLevel.warn]) := by
      rw [hp]
      rfl
    refine ⟨hl, ?_, ?_⟩
    · unfold mainRun
      rw [hs]
      simp [hl]
    · unfold mainRun
      rw [hs]
      simp [hl]

/-- Environment with no stats folder for the C9 witness. -/
def envNoStats : Env := { statsFolder := none, playerdataFolder := some [] }

/-- Environment with no playerdata folder for the C9 witness. -/
def envNoPlayerdata : Env := { statsFolder := some [], playerdataFolder := none }

/-- Witness for C9 at concrete environments missing each directory. -/
theorem directory_missing_policy_witness :
    ((mainRun envNoStats "t").output = none ∧
      (mainRun envNoStats "t").logs = [LogLevel.error]) ∧
    (load_names_and_health_from_playerdata envNoPlayerdata.playerdataFolder =
        ([], [LogLevel.warn]) ∧
      (mainRun envNoPlayerdata "t").output = some (processStats [] "t" []).1 ∧
      LogLevel.warn ∈ (mainRun envNoPlayerdata "t").logs) :=
  ⟨directory_missing_policy.1 envNoStats "t" rfl,
   directory_missing_policy.2 envNoPlayerdata "t" [] rfl rfl⟩
